import Mathlib

/-!
Verification development for `ReportesTurnoopenpyxl.py`, a linear ETL script that
reads a folder of Excel workbooks, extracts the A–K block of every eligible
worksheet (headers in row index 4, data from row index 5 on), concatenates the
per-sheet tables, appends tracking and annotation columns, and writes one
consolidated grid whose header row sits at row index 5.

The embedding is shallow and executable.  Cells are a tagged scalar type; a
worksheet is a name, an openpyxl sheet state and a grid; a pandas DataFrame is
a list of column names plus a list of rows.  openpyxl's `sheet.values` always
yields a rectangular grid (every row tuple has the same width), so the
definitions are read on that domain; theorems that need it carry an explicit
`Rect` hypothesis.  Logging calls in the script are side effects with no data
flow and are not modelled; the `Option` results model the `None` returns and
the no-output-written path.
-/

namespace ReportesTurno

/-- A scalar cell value as seen through openpyxl with `data_only=True`.
`str` is a Python `str` cell; `nonstr` is any non-`None`, non-string scalar
(number, date, bool, ...) carrying its Python `str()` rendering; `empty` is
`None` (a blank cell). -/
inductive Cell where
  | str (s : String)
  | nonstr (render : String)
  | empty
deriving DecidableEq, Repr

/-- Python `str(cell) if cell is not None else ''` (source line 54): the
coercion applied to every data cell. -/
def pyStr : Cell → String
  | .str s => s
  | .nonstr r => r
  | .empty => ""

/-- openpyxl worksheet visibility state: `sheet_state` is one of
`'visible'`, `'hidden'`, `'veryHidden'`. -/
inductive SheetState where
  | visible
  | hidden
  | veryHidden
deriving DecidableEq, Repr

/-- One worksheet: its tab name, its `sheet_state`, and the grid produced by
`list(sheet.values)` (rectangular: openpyxl pads every row to the sheet
width). -/
structure Worksheet where
  name : String
  sheet_state : SheetState
  grid : List (List Cell)
deriving DecidableEq, Repr

/-- The grid of a worksheet as openpyxl delivers it: every row has the same
width as row index 4 (the header row).  `sheet.values` guarantees this shape;
ragged grids are outside the modelled domain. -/
def Rect (ws : Worksheet) : Prop :=
  ∀ r ∈ ws.grid, r.length = (ws.grid.getD 4 []).length

instance (ws : Worksheet) : Decidable (Rect ws) := by
  unfold Rect; infer_instance

/-- The result of `openpyxl.load_workbook`: either the list of worksheets in
workbook order, or any exception raised while opening/reading the file
(corrupt file, wrong format, ...), which the script catches at line 84. -/
inductive Workbook where
  | ok (sheets : List Worksheet)
  | loadError
deriving DecidableEq, Repr

/-- A pandas DataFrame at the point where the script handles it: ordered
column names and rows of text cells (after line 54 every data value is a
string). -/
structure DataFrame where
  cols : List String
  rows : List (List String)
deriving DecidableEq, Repr

/-- Structural sanity of a frame: every row is as wide as the column list.
Frames built by the script satisfy this on rectangular input. -/
def WF (df : DataFrame) : Prop :=
  ∀ r ∈ df.rows, r.length = df.cols.length

/-- Character-list test: `p` occurs at the start of `s`. -/
def listStarts : List Char → List Char → Bool
  | [], _ => true
  | _ :: _, [] => false
  | a :: p, b :: s => if a = b then listStarts p s else false

/-- `s.startswith(p)` / an anchored `'^...'` regex match on `s`. -/
def pyStarts (s p : String) : Bool := listStarts p.toList s.toList

/-- `s.endswith(p)` (used for the `.xlsx` filter at line 94). -/
def pyEnds (s p : String) : Bool := listStarts p.toList.reverse s.toList.reverse

/-- Python `str.strip()` (pandas `.str.strip()` at line 67): drop leading and
trailing whitespace. -/
def pyStrip (s : String) : String :=
  String.mk (((s.toList.dropWhile Char.isWhitespace).reverse.dropWhile
      Char.isWhitespace).reverse)

/-- `os.path.basename` on the script's paths: the suffix after the last path
separator (`/` or `\`), accumulator-style. -/
def lastComponent : List Char → List Char → List Char
  | [], acc => acc.reverse
  | c :: cs, acc =>
      if c = '/' ∨ c = '\\' then lastComponent cs [] else lastComponent cs (c :: acc)

/-- `os.path.basename(file_path)` (source line 72). -/
def pyBasename (p : String) : String := String.mk (lastComponent p.toList [])

/-- `os.path.join(input_folder, file_name)` (source line 99); the separator is
immaterial because only `pyBasename` ever looks at the joined path. -/
def pyJoin (dir name : String) : String := dir ++ "/" ++ name

/-- The column-name predicate of line 61,
`df.columns.str.contains('^Unnamed') == False`, read per name: a string name
is kept iff it does not start with `Unnamed`; for a non-string name (the
header cell was `None`, a number, a date, ...) pandas `.str.contains` yields
`NaN`, and `NaN == False` is `False`, so the column is dropped. -/
def keepCol : Cell → Bool
  | .str s => !(pyStarts s "Unnamed")
  | _ => false

/-- Is the cell a Python string? -/
def isStrCell : Cell → Bool
  | .str _ => true
  | _ => false

/-- Is the cell `None`? -/
def isNoneCell : Cell → Bool
  | .empty => true
  | _ => false

/-- The exception path of the `try` at lines 60–64: pandas' `.str` accessor
raises on a column index whose inferred dtype is not string-like (e.g. an
all-numeric header row), which the script catches and turns into a whole-sheet
skip.  Modelled as: the accessor fails iff the headers contain no string at
all yet are not all blank.  (pandas admits a few more mixed non-string
combinations than this; the difference only moves some sheets between "all
columns dropped" and "sheet skipped", and the presence of any string header
always makes the accessor succeed, which is all the theorems below rely on.) -/
def strAccessorFails (hs : List Cell) : Bool :=
  !(hs.any isStrCell) && !(hs.all isNoneCell)

/-- Positional boolean-mask selection, `df.loc[:, mask]` (line 61), applied to
one sequence. -/
def applyMask {α : Type} : List Bool → List α → List α
  | [], _ => []
  | _, [] => []
  | b :: ms, x :: xs => if b then x :: applyMask ms xs else applyMask ms xs

/-- The name of a (surviving, hence string) header cell, as pandas stores it. -/
def colName : Cell → String
  | .str s => s
  | .nonstr r => r
  | .empty => ""

/-- Pandas column assignment `df[n] = v` with a scalar `v` (lines 72–73 and
116–119): if `n` already names a column, every column so named is overwritten
in place; otherwise a new column holding `v` in every row is appended at the
end. -/
def setCol (df : DataFrame) (n v : String) : DataFrame :=
  if n ∈ df.cols then
    ⟨df.cols, df.rows.map fun r => (df.cols.zip r).map fun p => if p.1 = n then v else p.2⟩
  else
    ⟨df.cols ++ [n], df.rows.map fun r => r ++ [v]⟩

/-- The body of the per-sheet loop of `process_file` (source lines 28–75) for
one worksheet: `none` means the sheet was skipped (`continue`), `some df` that
its DataFrame was appended to `all_data`. -/
def processSheet (fp : String) (ws : Worksheet) : Option DataFrame :=
  -- line 29: `if sheet_name == 'Hoja1' or workbook[sheet_name].sheet_state == 'hidden'`
  if ws.name = "Hoja1" ∨ ws.sheet_state = .hidden then none
  -- line 41: `if len(data) < 5`
  else if ws.grid.length < 5 then none
  else
    -- lines 46–47: `headers = data[4][:11]`, `rows = [row[:11] for row in data[5:]]`
    let headers := (ws.grid.getD 4 []).take 11
    let rows0 := (ws.grid.drop 5).map fun r => r.take 11
    -- line 49: `if not rows`
    if rows0.isEmpty then none
    else
      -- line 54: coerce every data cell to text
      let rows1 := rows0.map fun r => r.map pyStr
      -- lines 60–64: the Unnamed-column filter, whole-sheet skip on failure
      if strAccessorFails headers then none
      else
        let mask := headers.map keepCol
        let kept := applyMask mask headers
        let rows2 := rows1.map fun r => applyMask mask r
        -- line 67: strip surviving column names
        let cols := kept.map fun h => pyStrip (colName h)
        -- lines 72–73: tracking columns
        some (setCol (setCol ⟨cols, rows2⟩ "File Name" (pyBasename fp))
              "Sheet Name" ws.name)

/-- First-seen union of the column lists of a list of frames: the column
semantics of `pd.concat` (lines 82 and 111). -/
def colUnion (dfs : List DataFrame) : List String :=
  dfs.foldl (fun acc d => acc ++ d.cols.filter fun c => !(decide (c ∈ acc))) []

/-- Reindexing one row of a frame to a wider column list: a present column
keeps its value, a missing one gets the neutral empty value (pandas fills
`NaN`, which renders as an empty cell in the written workbook). -/
def lookupCell (cols : List String) (r : List String) (c : String) : String :=
  match (cols.zip r).find? (fun p => decide (p.1 = c)) with
  | some p => p.2
  | none => ""

/-- `pd.concat(dfs, ignore_index=True)`: columns are the first-seen union,
rows follow frame order, each reindexed to the union. -/
def concatDfs (dfs : List DataFrame) : DataFrame :=
  let cols := colUnion dfs
  ⟨cols, (dfs.map fun d => d.rows.map fun r => cols.map (lookupCell d.cols r)).flatten⟩

/-- `process_file(file_path)` (source lines 15–86): `none` both when the
workbook failed to open/process (line 84) and when no sheet yielded data
(line 78). -/
def process_file (fp : String) (wb : Workbook) : Option DataFrame :=
  match wb with
  | .loadError => none
  | .ok sheets =>
      let all_data := sheets.filterMap (processSheet fp)
      if all_data.isEmpty then none else some (concatDfs all_data)

/-- The `.xlsx` directory filter of line 94 over a directory listing, modelled
as name/workbook pairs in listing order. -/
def listedFiles (listing : List (String × Workbook)) : List (String × Workbook) :=
  listing.filter fun f => pyEnds f.1 ".xlsx"

/-- The `merged_data` accumulator of lines 96–104: the per-file frames of the
files that yielded usable data, in file order. -/
def mergedData (dir : String) (listing : List (String × Workbook)) : List DataFrame :=
  (listedFiles listing).filterMap fun f => process_file (pyJoin dir f.1) f.2

/-- Lines 111–119: concatenate the per-file frames and append the four fixed
annotation columns, each filled with the empty string. -/
def finalDf (dir : String) (listing : List (String × Workbook)) : DataFrame :=
  setCol (setCol (setCol (setCol (concatDfs (mergedData dir listing))
    "Ingeniero de Calidad" "") "Status" "") "Método 7M" "") "Fecha" ""

/-- `to_excel(writer, index=False, startrow=5)` (lines 122–123): the written
sheet as a grid of rows — five blank rows, then the header row, then the data
rows. -/
def writeExcel (df : DataFrame) : List (List String) :=
  List.replicate 5 [] ++ [df.cols] ++ df.rows

/-- `process_year_folder(input_folder, output_file_path)` (source lines
89–124): `none` models the early return of lines 106–108 (no output file is
written); `some grid` models the output workbook's single sheet. -/
def process_year_folder (dir : String) (listing : List (String × Workbook)) :
    Option (List (List String)) :=
  if (mergedData dir listing).isEmpty then none
  else some (writeExcel (finalDf dir listing))

/-! ## Masking lemmas -/

theorem applyMask_self {α : Type} (f : α → Bool) :
    ∀ xs : List α, applyMask (xs.map f) xs = xs.filter f := by
  intro xs
  induction xs with
  | nil => rfl
  | cons a as ih =>
      by_cases h : f a = true
      · simp [applyMask, List.filter, h, ih]
      · simp only [Bool.not_eq_true] at h
        simp [applyMask, List.filter, h, ih]

theorem applyMask_map_eq {α β γ : Type} (f : α → Bool) (g : β → γ) :
    ∀ (xs : List α) (ys : List β), ys.length = xs.length →
      applyMask (xs.map f) (ys.map g) =
        (xs.zip ys).filterMap fun p => if f p.1 then some (g p.2) else none := by
  intro xs
  induction xs with
  | nil =>
      intro ys h
      have : ys = [] := List.length_eq_zero.mp h
      subst this; rfl
  | cons a as ih =>
      intro ys h
      cases ys with
      | nil => simp at h
      | cons b bs =>
          simp only [List.length_cons, Nat.succ.injEq] at h
          by_cases hf : f a = true
          · simp [applyMask, List.zip_cons_cons, List.filterMap_cons, hf, ih bs h]
          · simp only [Bool.not_eq_true] at hf
            simp [applyMask, List.zip_cons_cons, List.filterMap_cons, hf, ih bs h]

theorem zip_filterMap_length {α β γ : Type} (f : α → Bool) (g : β → γ) :
    ∀ (xs : List α) (ys : List β), ys.length = xs.length →
      ((xs.zip ys).filterMap fun p => if f p.1 then some (g p.2) else none).length =
        (xs.filter f).length := by
  intro xs
  induction xs with
  | nil =>
      intro ys h
      have : ys = [] := List.length_eq_zero.mp h
      subst this; rfl
  | cons a as ih =>
      intro ys h
      cases ys with
      | nil => simp at h
      | cons b bs =>
          simp only [List.length_cons, Nat.succ.injEq] at h
          by_cases hf : f a = true
          · simp [List.zip_cons_cons, List.filterMap_cons, List.filter, hf, ih bs h]
          · simp only [Bool.not_eq_true] at hf
            simp [List.zip_cons_cons, List.filterMap_cons, List.filter, hf, ih bs h]

/-! ## Pointwise lemmas about the overwrite branch of `setCol` -/

theorem zip_ite_get_eq {n v : String} :
    ∀ (cols r : List String) (j : Nat), r.length = cols.length → cols[j]? = some n →
      (((cols.zip r).map fun p => if p.1 = n then v else p.2))[j]? = some v := by
  intro cols
  induction cols with
  | nil => intro r j _ hj; simp at hj
  | cons c cs ih =>
      intro r j hlen hj
      cases r with
      | nil => simp at hlen
      | cons x xs =>
          simp only [List.length_cons, Nat.succ.injEq] at hlen
          cases j with
          | zero =>
              simp only [List.getElem?_cons_zero, Option.some.injEq] at hj
              subst hj
              simp [List.zip_cons_cons]
          | succ k =>
              simp only [List.getElem?_cons_succ] at hj
              simpa [List.zip_cons_cons] using ih xs k hlen hj

theorem zip_ite_get_ne {n v m : String} (hmn : m ≠ n) :
    ∀ (cols r : List String) (j : Nat), r.length = cols.length → cols[j]? = some m →
      (((cols.zip r).map fun p => if p.1 = n then v else p.2))[j]? = r[j]? := by
  intro cols
  induction cols with
  | nil => intro r j _ hj; simp at hj
  | cons c cs ih =>
      intro r j hlen hj
      cases r with
      | nil => simp at hlen
      | cons x xs =>
          simp only [List.length_cons, Nat.succ.injEq] at hlen
          cases j with
          | zero =>
              simp only [List.getElem?_cons_zero, Option.some.injEq] at hj
              subst hj
              simp [List.zip_cons_cons, hmn]
          | succ k =>
              simp only [List.getElem?_cons_succ] at hj
              simpa [List.zip_cons_cons] using ih xs k hlen hj

/-! ## `setCol` lemmas -/

theorem setCol_rows_length (df : DataFrame) (n v : String) :
    (setCol df n v).rows.length = df.rows.length := by
  unfold setCol; split <;> simp

theorem setCol_WF {df : DataFrame} (n v : String) (h : WF df) : WF (setCol df n v) := by
  unfold setCol
  split
  · intro r hr
    simp only [List.mem_map] at hr
    obtain ⟨r0, hr0, rfl⟩ := hr
    simp [List.length_zip, h r0 hr0]
  · intro r hr
    simp only [List.mem_map] at hr
    obtain ⟨r0, hr0, rfl⟩ := hr
    simp [h r0 hr0]

theorem setCol_fresh {df : DataFrame} {n : String} (v : String) (h : n ∉ df.cols) :
    setCol df n v = ⟨df.cols ++ [n], df.rows.map fun r => r ++ [v]⟩ := by
  simp [setCol, h]

/-- After `df[n] = v`, every cell sitting under a column named `n` holds `v`. -/
theorem setCol_get_set {df : DataFrame} {n v : String} (h : WF df) :
    ∀ r ∈ (setCol df n v).rows, ∀ j : Nat,
      (setCol df n v).cols[j]? = some n → r[j]? = some v := by
  unfold setCol
  split
  case isTrue hmem =>
    intro r hr j hj
    simp only [List.mem_map] at hr
    obtain ⟨r0, hr0, rfl⟩ := hr
    exact zip_ite_get_eq df.cols r0 j (h r0 hr0) hj
  case isFalse hmem =>
    intro r hr j hj
    simp only [List.mem_map] at hr
    obtain ⟨r0, hr0, rfl⟩ := hr
    rcases Nat.lt_or_ge j df.cols.length with hlt | hge
    · rw [List.getElem?_append_left hlt] at hj
      exact absurd (List.getElem?_mem hj) hmem
    · rw [List.getElem?_append_right hge] at hj
      have hjl : j = df.cols.length := by
        rcases Nat.lt_or_ge (j - df.cols.length) 1 with h1 | h1
        · omega
        · rw [List.getElem?_eq_none (by simpa using h1)] at hj; simp at hj
      subst hjl
      rw [← h r0 hr0, List.getElem?_concat_length]

/-- `df[n] = v` leaves every cell under a column named `m ≠ n` unchanged:
if that column constantly held `w`, it still does. -/
theorem setCol_get_other {df : DataFrame} {n v m w : String} (h : WF df) (hmn : m ≠ n)
    (hprev : ∀ r ∈ df.rows, ∀ j : Nat, df.cols[j]? = some m → r[j]? = some w) :
    ∀ r ∈ (setCol df n v).rows, ∀ j : Nat,
      (setCol df n v).cols[j]? = some m → r[j]? = some w := by
  unfold setCol
  split
  case isTrue hmem =>
    intro r hr j hj
    simp only [List.mem_map] at hr
    obtain ⟨r0, hr0, rfl⟩ := hr
    rw [zip_ite_get_ne hmn df.cols r0 j (h r0 hr0) hj]
    exact hprev r0 hr0 j hj
  case isFalse hmem =>
    intro r hr j hj
    simp only [List.mem_map] at hr
    obtain ⟨r0, hr0, rfl⟩ := hr
    rcases Nat.lt_or_ge j df.cols.length with hlt | hge
    · rw [List.getElem?_append_left hlt] at hj
      rw [List.getElem?_append_left (by rw [h r0 hr0]; exact hlt)]
      exact hprev r0 hr0 j hj
    · rw [List.getElem?_append_right hge] at hj
      rcases Nat.lt_or_ge (j - df.cols.length) 1 with h1 | h1
      · interval_cases h2 : j - df.cols.length
        · simp only [List.getElem?_cons_zero, Option.some.injEq] at hj
          exact absurd hj.symm hmn
      · rw [List.getElem?_eq_none (by simpa using h1)] at hj; simp at hj

/-! ## The shape of a successfully extracted per-sheet table -/

/-- `data[4][:11]`: the sliced header cells of a worksheet. -/
def hdrCells (ws : Worksheet) : List Cell := (ws.grid.getD 4 []).take 11

/-- The column names of the per-sheet table before the tracking columns:
the headers surviving the Unnamed filter, stripped. -/
def coreCols (ws : Worksheet) : List String :=
  ((hdrCells ws).filter keepCol).map fun h => pyStrip (colName h)

/-- The data rows of the per-sheet table before the tracking columns: for each
source row below the header row, the coerced cells of the first eleven columns
whose header survives the filter. -/
def coreRows (ws : Worksheet) : List (List String) :=
  (ws.grid.drop 5).map fun r =>
    ((hdrCells ws).zip (r.take 11)).filterMap fun p =>
      if keepCol p.1 then some (pyStr p.2) else none

/-- The per-sheet table before the two tracking columns are set. -/
def coreDf (ws : Worksheet) : DataFrame := ⟨coreCols ws, coreRows ws⟩

theorem coreDf_WF {ws : Worksheet} (h : Rect ws) : WF (coreDf ws) := by
  intro r hr
  simp only [coreDf, coreRows, List.mem_map] at hr
  obtain ⟨r0, hr0, rfl⟩ := hr
  have hlen : (r0.take 11).length = (hdrCells ws).length := by
    have := h r0 (List.mem_of_mem_drop hr0)
    simp [hdrCells, this]
  simp only [coreDf, coreCols]
  rw [zip_filterMap_length keepCol pyStr (hdrCells ws) (r0.take 11) hlen]
  simp

/-- Structure of `processSheet` on a sheet that reaches line 75: the produced
frame is the filtered, stripped, coerced A–K block with the two tracking
columns set. -/
theorem processSheet_shape (fp : String) (ws : Worksheet)
    (h1 : ws.name ≠ "Hoja1") (h2 : ws.sheet_state ≠ .hidden)
    (h3 : 5 < ws.grid.length) (h4 : Rect ws)
    (h5 : strAccessorFails (hdrCells ws) = false) :
    processSheet fp ws =
      some (setCol (setCol (coreDf ws) "File Name" (pyBasename fp))
        "Sheet Name" ws.name) := by
  have hOr : ¬(ws.name = "Hoja1" ∨ ws.sheet_state = .hidden) := by
    rintro (h | h)
    · exact h1 h
    · exact h2 h
  have hlt : ¬(ws.grid.length < 5) := by omega
  unfold processSheet
  rw [if_neg hOr, if_neg hlt]
  rw [if_neg (show ¬((((ws.grid.drop 5).map fun r => r.take 11).isEmpty) = true) by
        simp; omega)]
  rw [if_neg (show ¬(strAccessorFails ((ws.grid.getD 4 []).take 11) = true) by
        simp only [hdrCells] at h5; simpa using h5)]
  refine congrArg (fun d =>
    some (setCol (setCol d "File Name" (pyBasename fp)) "Sheet Name" ws.name)) ?_
  show DataFrame.mk _ _ = DataFrame.mk (coreCols ws) (coreRows ws)
  congr 1
  · rw [applyMask_self keepCol]
    rfl
  · simp only [List.map_map]
    apply List.map_congr_left
    intro r hr
    have hrl := h4 r (List.mem_of_mem_drop hr)
    have hlen : (r.take 11).length = ((ws.grid.getD 4 []).take 11).length := by
      simp [List.length_take, hrl]
    simpa [Function.comp, coreRows, hdrCells] using
      applyMask_map_eq keepCol pyStr ((ws.grid.getD 4 []).take 11) (r.take 11) hlen

/-! ## Skip conditions of `processSheet` -/

/-- A worksheet named `Hoja1`, or hidden, or with fewer than five rows, is
skipped by the per-sheet loop. -/
theorem processSheet_none (fp : String) (ws : Worksheet)
    (h : ws.name = "Hoja1" ∨ ws.sheet_state = .hidden ∨ ws.grid.length < 5) :
    processSheet fp ws = none := by
  unfold processSheet
  by_cases h0 : ws.name = "Hoja1" ∨ ws.sheet_state = .hidden
  · rw [if_pos h0]
  · rw [if_neg h0]
    have hlen : ws.grid.length < 5 := by
      rcases h with h | h | h
      · exact absurd (Or.inl h) h0
      · exact absurd (Or.inr h) h0
      · exact h
    rw [if_pos hlen]

/-- A worksheet whose data slice (rows 5 and beyond) is empty is skipped. -/
theorem processSheet_empty_none (fp : String) (ws : Worksheet)
    (h0 : ¬(ws.name = "Hoja1" ∨ ws.sheet_state = .hidden))
    (hl : ¬ws.grid.length < 5)
    (he : (((ws.grid.drop 5).map fun r => r.take 11).isEmpty) = true) :
    processSheet fp ws = none := by
  unfold processSheet
  rw [if_neg h0, if_neg hl, if_pos he]

/-- When the Unnamed-column filter raises, the whole worksheet is skipped:
no partially filtered table is emitted. -/
theorem processSheet_fail_none (fp : String) (ws : Worksheet)
    (hf : strAccessorFails (hdrCells ws) = true) :
    processSheet fp ws = none := by
  simp only [hdrCells] at hf
  by_cases h0 : ws.name = "Hoja1" ∨ ws.sheet_state = .hidden
  · exact processSheet_none fp ws (by tauto)
  · by_cases hl : ws.grid.length < 5
    · exact processSheet_none fp ws (by tauto)
    · by_cases he : (((ws.grid.drop 5).map fun r => r.take 11).isEmpty) = true
      · exact processSheet_empty_none fp ws h0 hl he
      · unfold processSheet
        rw [if_neg h0, if_neg hl, if_neg he, if_pos hf]

/-- If the per-sheet loop produced a table, none of the skip conditions held. -/
theorem processSheet_some_conds (fp : String) (ws : Worksheet) (df : DataFrame)
    (h : processSheet fp ws = some df) :
    ws.name ≠ "Hoja1" ∧ ws.sheet_state ≠ .hidden ∧ 5 < ws.grid.length ∧
      strAccessorFails (hdrCells ws) = false := by
  by_cases h0 : ws.name = "Hoja1" ∨ ws.sheet_state = .hidden
  · rw [processSheet_none fp ws (by tauto)] at h; cases h
  · by_cases hl : ws.grid.length < 5
    · rw [processSheet_none fp ws (by tauto)] at h; cases h
    · by_cases hf : strAccessorFails (hdrCells ws) = true
      · rw [processSheet_fail_none fp ws hf] at h; cases h
      · refine ⟨fun hh => h0 (Or.inl hh), fun hh => h0 (Or.inr hh), ?_, by simpa using hf⟩
        by_cases he : (((ws.grid.drop 5).map fun r => r.take 11).isEmpty) = true
        · rw [processSheet_empty_none fp ws h0 hl he] at h; cases h
        · have hne : ws.grid.drop 5 ≠ [] := by simpa using he
          have := List.drop_eq_nil_iff.not.mp hne
          omega

/-! ## Concrete data used by counterexamples and witnesses -/

/-- A one-column worksheet grid: blank rows 0–3, header `ID` in row 4, one
data row. -/
def gridA : List (List Cell) :=
  [[.empty], [.empty], [.empty], [.empty], [.str "ID"], [.str "7"]]

/-- A visible eligible worksheet. -/
def wsVisible : Worksheet := ⟨"Datos", .visible, gridA⟩

/-- The same grid on a hidden worksheet. -/
def wsHidden : Worksheet := ⟨"Datos", .hidden, gridA⟩

/-- The same grid on a `veryHidden` worksheet: not visible, yet not equal to
the `'hidden'` state the script tests for. -/
def wsVeryHidden : Worksheet := ⟨"Datos", .veryHidden, gridA⟩

/-- A worksheet whose second header is the literal text `Unnamed: 0` — a
non-empty header that the filter nevertheless drops. -/
def wsUnnamedTxt : Worksheet :=
  ⟨"Datos", .visible,
    [[.empty, .empty], [.empty, .empty], [.empty, .empty], [.empty, .empty],
     [.str "ID", .str "Unnamed: 0"], [.str "1", .str "x"]]⟩

/-- A worksheet with a data column itself headed `File Name`, to exercise the
tracking-column overwrite, plus a date-valued (non-string) header. -/
def wsTrack : Worksheet :=
  ⟨"Datos", .visible,
    [[.empty, .empty, .empty], [.empty, .empty, .empty], [.empty, .empty, .empty],
     [.empty, .empty, .empty],
     [.str "ID", .str "File Name", .nonstr "2023-01-05 00:00:00"],
     [.str "1", .str "OLD", .str "x"]]⟩

/-- A one-file directory listing whose file holds just `wsVisible`. -/
def exListing : List (String × Workbook) := [("F.xlsx", .ok [wsVisible])]

/-! ## C1 -/

/-- C1 counterexample: the claim requires a worksheet whose visibility is not
`visible` to contribute no rows, but the script only skips the state
`'hidden'`: a `veryHidden` worksheet (not visible) with enough rows flows into
the extracted and consolidated tables. -/
theorem c1_counterexample :
    wsVeryHidden.sheet_state ≠ SheetState.visible ∧
    processSheet "F.xlsx" wsVeryHidden =
      some ⟨["ID", "File Name", "Sheet Name"], [["7", "F.xlsx", "Datos"]]⟩ ∧
    process_file "F.xlsx" (Workbook.ok [wsVeryHidden]) =
      some ⟨["ID", "File Name", "Sheet Name"], [["7", "F.xlsx", "Datos"]]⟩ := by
  refine ⟨by decide, by decide, by decide⟩

/-- C1 (amended): a worksheet contributes no rows unless its name differs
from `Hoja1`, its `sheet_state` differs from `'hidden'` (a `veryHidden` sheet
is processed, unlike what a two-state visibility reading suggests), and its
grid has at least 5 rows; a worksheet failing any of these is skipped
entirely — it is absent from the per-file table, hence from the consolidated
table, never partially included. -/
theorem c1_ineligible_sheet_contributes_nothing (ws : Worksheet)
    (h : ws.name = "Hoja1" ∨ ws.sheet_state = .hidden ∨ ws.grid.length < 5) :
    ∀ fp : String, processSheet fp ws = none ∧
      ∀ pre post : List Worksheet,
        process_file fp (.ok (pre ++ ws :: post)) = process_file fp (.ok (pre ++ post)) := by
  intro fp
  refine ⟨processSheet_none fp ws h, fun pre post => ?_⟩
  simp [process_file, List.filterMap_append, List.filterMap_cons, processSheet_none fp ws h]

/-- C1 witness: a hidden worksheet with plenty of rows is skipped and its
removal leaves the per-file result unchanged. -/
theorem c1_witness :
    (wsHidden.name = "Hoja1" ∨ wsHidden.sheet_state = .hidden ∨ wsHidden.grid.length < 5) ∧
    processSheet "F.xlsx" wsHidden = none ∧
    process_file "F.xlsx" (.ok ([wsVisible] ++ wsHidden :: [])) =
      process_file "F.xlsx" (.ok ([wsVisible] ++ [])) :=
  ⟨by decide,
   (c1_ineligible_sheet_contributes_nothing wsHidden (by decide) "F.xlsx").1,
   (c1_ineligible_sheet_contributes_nothing wsHidden (by decide) "F.xlsx").2 [wsVisible] []⟩

/-! ## C2 -/

/-- C2: for every eligible worksheet whose extraction succeeds, the table is
built from exactly the header cells of row index 4 and the data rows from row
index 5 to the end, both sliced to the first 11 columns (`take 11`): every
surviving column name comes from a row-4 cell among columns 0..10, every data
cell from columns 0..10 of a row at index ≥ 5, and the table has one data row
per source row below the header row — nothing beyond column K can appear. -/
theorem c2_row_and_column_slicing (fp : String) (ws : Worksheet)
    (h1 : ws.name ≠ "Hoja1") (h2 : ws.sheet_state ≠ .hidden)
    (h3 : 5 < ws.grid.length) (h4 : Rect ws)
    (h5 : strAccessorFails (hdrCells ws) = false) :
    processSheet fp ws =
      some (setCol (setCol
        ⟨(((ws.grid.getD 4 []).take 11).filter keepCol).map fun h => pyStrip (colName h),
         (ws.grid.drop 5).map fun r =>
           (((ws.grid.getD 4 []).take 11).zip (r.take 11)).filterMap fun p =>
             if keepCol p.1 then some (pyStr p.2) else none⟩
        "File Name" (pyBasename fp)) "Sheet Name" ws.name) ∧
    ∀ df : DataFrame, processSheet fp ws = some df →
      df.rows.length = ws.grid.length - 5 := by
  have hs := processSheet_shape fp ws h1 h2 h3 h4 h5
  constructor
  · exact hs
  · intro df hdf
    rw [hdf] at hs
    have : df = setCol (setCol (coreDf ws) "File Name" (pyBasename fp))
        "Sheet Name" ws.name := Option.some.inj hs
    subst this
    rw [setCol_rows_length, setCol_rows_length]
    simp [coreDf, coreRows]

/-- C2 witness: the theorem at a concrete visible one-column sheet. -/
theorem c2_witness :
    wsVisible.name ≠ "Hoja1" ∧ wsVisible.sheet_state ≠ .hidden ∧
    5 < wsVisible.grid.length ∧ Rect wsVisible ∧
    strAccessorFails (hdrCells wsVisible) = false ∧
    processSheet "F.xlsx" wsVisible =
      some ⟨["ID", "File Name", "Sheet Name"], [["7", "F.xlsx", "Datos"]]⟩ :=
  ⟨by decide, by decide, by decide, by decide, by decide,
   (c2_row_and_column_slicing "F.xlsx" wsVisible (by decide) (by decide) (by decide)
     (by decide) (by decide)).1⟩

/-! ## C3 -/

/-- C3 counterexample: the header `Unnamed: 0` is a non-empty string (also
after trimming), yet its column is absent from the Extracted Table — the
filter drops every header matching `^Unnamed`, not only the placeholders that
blank headers produce.  This refutes "every column whose header is non-empty
after trimming is present". -/
theorem c3_counterexample :
    pyStrip "Unnamed: 0" ≠ "" ∧
    processSheet "F.xlsx" wsUnnamedTxt =
      some ⟨["ID", "File Name", "Sheet Name"], [["1", "F.xlsx", "Datos"]]⟩ ∧
    "Unnamed: 0" ∉ (["ID", "File Name", "Sheet Name"] : List String) := by
  refine ⟨by decide, by decide, by decide⟩

/-- C3 (amended): a column whose header cell is empty is absent from the
Extracted Table; a sliced column is present exactly when its header is a
string that does not start with `Unnamed` (so a genuine `Unnamed...` text
header, or a non-string header, is dropped even though non-empty); and if
evaluating the filter fails the entire worksheet is skipped — no partially
filtered table is emitted. -/
theorem c3_header_blank_filtering (fp : String) (ws : Worksheet)
    (h1 : ws.name ≠ "Hoja1") (h2 : ws.sheet_state ≠ .hidden)
    (h3 : 5 < ws.grid.length) (h4 : Rect ws) :
    (strAccessorFails (hdrCells ws) = true → processSheet fp ws = none) ∧
    (strAccessorFails (hdrCells ws) = false →
      processSheet fp ws =
        some (setCol (setCol
          ⟨((hdrCells ws).filter keepCol).map fun h => pyStrip (colName h), coreRows ws⟩
          "File Name" (pyBasename fp)) "Sheet Name" ws.name)) ∧
    keepCol Cell.empty = false ∧
    (∀ s : String, keepCol (Cell.str s) = !(pyStarts s "Unnamed")) := by
  refine ⟨fun hf => processSheet_fail_none fp ws hf,
          fun h5 => processSheet_shape fp ws h1 h2 h3 h4 h5, rfl, fun s => rfl⟩

/-- C3 witness: on a sheet with a real header and an `Unnamed: 0` header, the
amended filter description holds; the surviving column list keeps `ID` and
drops `Unnamed: 0`. -/
theorem c3_witness :
    strAccessorFails (hdrCells wsUnnamedTxt) = false ∧
    processSheet "F.xlsx" wsUnnamedTxt =
      some ⟨["ID", "File Name", "Sheet Name"], [["1", "F.xlsx", "Datos"]]⟩ ∧
    keepCol Cell.empty = false :=
  ⟨by decide,
   (c3_header_blank_filtering "F.xlsx" wsUnnamedTxt (by decide) (by decide) (by decide)
     (by decide)).2.1 (by decide),
   (c3_header_blank_filtering "F.xlsx" wsUnnamedTxt (by decide) (by decide) (by decide)
     (by decide)).2.2.1⟩

/-! ## C9 -/

/-- C9: whenever a worksheet yields an Extracted Table, every cell sitting
under a column named `File Name` holds the base name of the input file, and
every cell under a column named `Sheet Name` holds the worksheet's name — so
a surviving data column that happened to be named `File Name` or `Sheet Name`
has had its contents overwritten by the tracking values, not kept alongside
them. -/
theorem c9_tracking_values (fp : String) (ws : Worksheet) (df : DataFrame)
    (hR : Rect ws) (h : processSheet fp ws = some df) :
    (∀ r ∈ df.rows, ∀ j : Nat,
      df.cols[j]? = some "File Name" → r[j]? = some (pyBasename fp)) ∧
    (∀ r ∈ df.rows, ∀ j : Nat,
      df.cols[j]? = some "Sheet Name" → r[j]? = some ws.name) := by
  obtain ⟨h1, h2, h3, h5⟩ := processSheet_some_conds fp ws df h
  have hs := processSheet_shape fp ws h1 h2 h3 hR h5
  rw [h] at hs
  have hdf : df = setCol (setCol (coreDf ws) "File Name" (pyBasename fp))
      "Sheet Name" ws.name := Option.some.inj hs
  subst hdf
  have wf0 : WF (coreDf ws) := coreDf_WF hR
  have wf1 : WF (setCol (coreDf ws) "File Name" (pyBasename fp)) :=
    setCol_WF "File Name" (pyBasename fp) wf0
  constructor
  · exact setCol_get_other wf1 (by decide) (setCol_get_set wf0)
  · exact setCol_get_set wf1

/-- C9 witness: on a sheet whose own second column is headed `File Name` with
value `OLD`, the extracted row holds the file's base name at that position
(the original value is overwritten) and the sheet name in the last column. -/
theorem c9_witness :
    Rect wsTrack ∧
    processSheet "D/F.xlsx" wsTrack =
      some ⟨["ID", "File Name", "Sheet Name"], [["1", "F.xlsx", "Datos"]]⟩ ∧
    (["1", "F.xlsx", "Datos"] : List String)[1]? = some "F.xlsx" ∧
    (["1", "F.xlsx", "Datos"] : List String)[2]? = some "Datos" :=
  ⟨by decide, by decide,
   (c9_tracking_values "D/F.xlsx" wsTrack
      ⟨["ID", "File Name", "Sheet Name"], [["1", "F.xlsx", "Datos"]]⟩
      (by decide) (by decide)).1 ["1", "F.xlsx", "Datos"] (by decide) 1 (by decide),
   (c9_tracking_values "D/F.xlsx" wsTrack
      ⟨["ID", "File Name", "Sheet Name"], [["1", "F.xlsx", "Datos"]]⟩
      (by decide) (by decide)).2 ["1", "F.xlsx", "Datos"] (by decide) 2 (by decide)⟩

/-! ## C10 -/

/-- C10: the row-4 header cells reach the column filter uncoerced (the filter
sees raw cells, only data cells pass through `pyStr`), and a sliced column
survives into the Extracted Table exactly when its header cell is a string
not starting with `Unnamed`: the table's columns are the `keepCol`-surviving
headers, `keepCol` holds exactly on such strings (so `None`, numeric or date
headers are dropped, as is a genuine `Unnamed...` text header), and when the
filter evaluation fails — which can only happen when no header is a string —
the sheet is skipped and, consistently, no header qualified. -/
theorem c10_uncoerced_header_filter (fp : String) (ws : Worksheet)
    (h1 : ws.name ≠ "Hoja1") (h2 : ws.sheet_state ≠ .hidden)
    (h3 : 5 < ws.grid.length) (h4 : Rect ws) :
    (∀ c : Cell, keepCol c = true ↔
      ∃ s : String, c = Cell.str s ∧ pyStarts s "Unnamed" = false) ∧
    (strAccessorFails (hdrCells ws) = false →
      processSheet fp ws =
        some (setCol (setCol
          ⟨((hdrCells ws).filter keepCol).map fun h => pyStrip (colName h), coreRows ws⟩
          "File Name" (pyBasename fp)) "Sheet Name" ws.name)) ∧
    (strAccessorFails (hdrCells ws) = true →
      processSheet fp ws = none ∧ ∀ c ∈ hdrCells ws, isStrCell c = false) := by
  refine ⟨?_, fun h5 => processSheet_shape fp ws h1 h2 h3 h4 h5,
          fun hf => ⟨processSheet_fail_none fp ws hf, ?_⟩⟩
  · intro c
    cases c with
    | str s =>
        constructor
        · intro hk
          exact ⟨s, rfl, by simpa [keepCol] using hk⟩
        · rintro ⟨t, ht, hp⟩
          cases ht
          simp [keepCol, hp]
    | nonstr r => simp [keepCol]
    | empty => simp [keepCol]
  · have := (Bool.and_eq_true _ _).mp hf
    intro c hc
    have hany : (hdrCells ws).any isStrCell = false := by
      have := this.1
      simpa using this
    simpa using List.any_eq_false.mp hany c hc

/-- C10 witness: a sheet whose third header is a date (non-string) keeps only
the genuine text column `ID`; the date-headed column is dropped without being
coerced to text first. -/
theorem c10_witness :
    wsTrack.name ≠ "Hoja1" ∧ 5 < wsTrack.grid.length ∧ Rect wsTrack ∧
    strAccessorFails (hdrCells wsTrack) = false ∧
    processSheet "F.xlsx" wsTrack =
      some ⟨["ID", "File Name", "Sheet Name"], [["1", "F.xlsx", "Datos"]]⟩ :=
  ⟨by decide, by decide, by decide, by decide,
   (c10_uncoerced_header_filter "F.xlsx" wsTrack (by decide) (by decide) (by decide)
     (by decide)).2.1 (by decide)⟩

/-! ## C4 -/

/-- Projections of the fresh-append branch of `setCol`. -/
theorem setCol_cols_fresh (df : DataFrame) {n : String} (v : String) (h : n ∉ df.cols) :
    (setCol df n v).cols = df.cols ++ [n] := by
  simp [setCol, h]

theorem setCol_rows_fresh (df : DataFrame) {n : String} (v : String) (h : n ∉ df.cols) :
    (setCol df n v).rows = df.rows.map fun r => r ++ [v] := by
  simp [setCol, h]

theorem not_mem_append_singleton {x y : String} {l : List String}
    (hl : x ∉ l) (hxy : x ≠ y) : x ∉ l ++ [y] := by
  intro hx
  rcases List.mem_append.mp hx with h | h
  · exact hl h
  · simp only [List.mem_singleton] at h
    exact hxy h

/-- C4 counterexample: the four appended annotation columns are named
`Ingeniero de Calidad`, `Status`, `Método 7M`, `Fecha` — not
`Quality Engineer`, `Status`, `Method-7M`, `Date` as the claim states. -/
theorem c4_counterexample :
    process_year_folder "IN" exListing =
      some [[], [], [], [], [],
        ["ID", "File Name", "Sheet Name",
         "Ingeniero de Calidad", "Status", "Método 7M", "Fecha"],
        ["7", "F.xlsx", "Datos", "", "", "", ""]] ∧
    (["Ingeniero de Calidad", "Status", "Método 7M", "Fecha"] : List String) ≠
      ["Quality Engineer", "Status", "Method-7M", "Date"] := by
  refine ⟨by decide, by decide⟩

/-- C4 (amended): whenever at least one input file yields usable data, the
consolidated table gains exactly four extra columns named
`Ingeniero de Calidad`, `Status`, `Método 7M`, `Fecha` (Spanish for Quality
Engineer / Status / Method-7M / Date), each holding the empty string in every
row; provided none of those four names already occurs among the input-derived
columns, they are appended after all of them (an existing column of the same
name would instead be overwritten in place, by the semantics of `setCol`). -/
theorem c4_annotation_columns (dir : String) (listing : List (String × Workbook))
    (h : mergedData dir listing ≠ [])
    (hfresh : ∀ n ∈ (["Ingeniero de Calidad", "Status", "Método 7M", "Fecha"] : List String),
      n ∉ (concatDfs (mergedData dir listing)).cols) :
    process_year_folder dir listing = some (writeExcel (finalDf dir listing)) ∧
    (finalDf dir listing).cols =
      (concatDfs (mergedData dir listing)).cols ++
        ["Ingeniero de Calidad", "Status", "Método 7M", "Fecha"] ∧
    (finalDf dir listing).rows =
      (concatDfs (mergedData dir listing)).rows.map fun r => r ++ ["", "", "", ""] := by
  set m := concatDfs (mergedData dir listing) with hm
  have hf1 : "Ingeniero de Calidad" ∉ m.cols := hfresh _ (by decide)
  have hf2 : "Status" ∉ m.cols := hfresh _ (by decide)
  have hf3 : "Método 7M" ∉ m.cols := hfresh _ (by decide)
  have hf4 : "Fecha" ∉ m.cols := hfresh _ (by decide)
  have c1 : (setCol m "Ingeniero de Calidad" "").cols = m.cols ++ ["Ingeniero de Calidad"] :=
    setCol_cols_fresh m "" hf1
  have m2 : "Status" ∉ (setCol m "Ingeniero de Calidad" "").cols := by
    rw [c1]; exact not_mem_append_singleton hf2 (by decide)
  have c2 : (setCol (setCol m "Ingeniero de Calidad" "") "Status" "").cols =
      (m.cols ++ ["Ingeniero de Calidad"]) ++ ["Status"] := by
    rw [setCol_cols_fresh _ "" m2, c1]
  have m3 : "Método 7M" ∉ (setCol (setCol m "Ingeniero de Calidad" "") "Status" "").cols := by
    rw [c2]
    exact not_mem_append_singleton (not_mem_append_singleton hf3 (by decide)) (by decide)
  have c3 : (setCol (setCol (setCol m "Ingeniero de Calidad" "") "Status" "") "Método 7M" "").cols =
      ((m.cols ++ ["Ingeniero de Calidad"]) ++ ["Status"]) ++ ["Método 7M"] := by
    rw [setCol_cols_fresh _ "" m3, c2]
  have m4 : "Fecha" ∉
      (setCol (setCol (setCol m "Ingeniero de Calidad" "") "Status" "") "Método 7M" "").cols := by
    rw [c3]
    exact not_mem_append_singleton
      (not_mem_append_singleton (not_mem_append_singleton hf4 (by decide)) (by decide)) (by decide)
  refine ⟨?_, ?_, ?_⟩
  · unfold process_year_folder
    rw [if_neg (by simpa using h)]
  · show (setCol (setCol (setCol (setCol m "Ingeniero de Calidad" "") "Status" "")
      "Método 7M" "") "Fecha" "").cols = _
    rw [setCol_cols_fresh _ "" m4, c3]
    simp [List.append_assoc]
  · show (setCol (setCol (setCol (setCol m "Ingeniero de Calidad" "") "Status" "")
      "Método 7M" "") "Fecha" "").rows = _
    rw [setCol_rows_fresh _ "" m4, setCol_rows_fresh _ "" m3, setCol_rows_fresh _ "" m2,
      setCol_rows_fresh m "" hf1]
    simp [List.map_map, Function.comp, List.append_assoc]

/-- C4 witness: the folder with one good file gains exactly the four Spanish
annotation columns, empty in the single data row. -/
theorem c4_witness :
    mergedData "IN" exListing ≠ [] ∧
    process_year_folder "IN" exListing = some (writeExcel (finalDf "IN" exListing)) ∧
    (finalDf "IN" exListing).cols =
      ["ID", "File Name", "Sheet Name",
       "Ingeniero de Calidad", "Status", "Método 7M", "Fecha"] ∧
    (finalDf "IN" exListing).rows = [["7", "F.xlsx", "Datos", "", "", "", ""]] :=
  ⟨by decide,
   (c4_annotation_columns "IN" exListing (by decide) (by decide)).1,
   (c4_annotation_columns "IN" exListing (by decide) (by decide)).2.1.trans (by decide),
   (c4_annotation_columns "IN" exListing (by decide) (by decide)).2.2.trans (by decide)⟩

/-! ## C5 -/

/-- C5: the aggregator writes no output exactly when every listed `.xlsx`
file yields no usable data; equivalently, the output grid is produced only
when at least one file produced a table. -/
theorem c5_no_output_iff_all_files_unusable (dir : String)
    (listing : List (String × Workbook)) :
    process_year_folder dir listing = none ↔
      ∀ f ∈ listedFiles listing, process_file (pyJoin dir f.1) f.2 = none := by
  have key : mergedData dir listing = [] ↔
      ∀ f ∈ listedFiles listing, process_file (pyJoin dir f.1) f.2 = none := by
    unfold mergedData
    exact List.filterMap_eq_nil_iff
  constructor
  · intro h
    by_cases he : (mergedData dir listing).isEmpty = true
    · exact key.mp (by simpa using he)
    · unfold process_year_folder at h
      rw [if_neg he] at h
      cases h
  · intro h
    have hempty : mergedData dir listing = [] := key.mpr h
    unfold process_year_folder
    rw [if_pos (by simp [hempty])]

/-- C5 witness: a folder whose only file fails to load produces no output. -/
theorem c5_witness :
    process_year_folder "IN" [("B.xlsx", Workbook.loadError)] = none :=
  (c5_no_output_iff_all_files_unusable "IN" [("B.xlsx", Workbook.loadError)]).mpr
    (by decide)

/-! ## C6 -/

/-- C6: a workbook whose opening/processing raises is converted to a
"no usable data" result inside `process_file`, and its presence anywhere in
the directory listing leaves the aggregate outcome on the remaining files
unchanged — one bad workbook never aborts the batch. -/
theorem c6_bad_workbook_never_aborts_batch :
    (∀ fp : String, process_file fp Workbook.loadError = none) ∧
    ∀ (dir nm : String) (pre post : List (String × Workbook)),
      process_year_folder dir (pre ++ (nm, Workbook.loadError) :: post) =
        process_year_folder dir (pre ++ post) := by
  refine ⟨fun fp => rfl, fun dir nm pre post => ?_⟩
  have hmerge : mergedData dir (pre ++ (nm, Workbook.loadError) :: post) =
      mergedData dir (pre ++ post) := by
    unfold mergedData listedFiles
    by_cases he : pyEnds nm ".xlsx" = true
    · simp [List.filter_append, List.filterMap_append, he, process_file]
    · simp [List.filter_append, List.filterMap_append, he]
  unfold process_year_folder finalDf
  rw [hmerge]

/-! ## C7 -/

/-- C7: whenever the consolidated table is persisted, the written sheet has
rows 0–4 blank, the header row at row index 5, and the data rows from row
index 6 on. -/
theorem c7_header_written_at_row_index_5 (dir : String)
    (listing : List (String × Workbook)) (h : mergedData dir listing ≠ []) :
    process_year_folder dir listing = some (writeExcel (finalDf dir listing)) ∧
    (∀ i : Nat, i < 5 → (writeExcel (finalDf dir listing))[i]? = some []) ∧
    (writeExcel (finalDf dir listing))[5]? = some (finalDf dir listing).cols ∧
    (writeExcel (finalDf dir listing)).drop 6 = (finalDf dir listing).rows := by
  refine ⟨?_, ?_, ?_, ?_⟩
  · unfold process_year_folder
    rw [if_neg (by simpa using h)]
  · intro i hi
    unfold writeExcel
    rw [List.getElem?_append_left (by rw [List.length_append, List.length_replicate]; omega)]
    rw [List.getElem?_append_left (by rw [List.length_replicate]; omega)]
    exact List.getElem?_replicate_of_lt hi
  · unfold writeExcel
    rw [List.getElem?_append_left (by simp)]
    rw [List.getElem?_append_right (by simp)]
    simp
  · unfold writeExcel
    exact List.drop_left' (by simp)

/-- C7 witness: the concrete one-file folder writes its header row at row
index 5 of the output grid. -/
theorem c7_witness :
    mergedData "IN" exListing ≠ [] ∧
    process_year_folder "IN" exListing = some (writeExcel (finalDf "IN" exListing)) ∧
    (writeExcel (finalDf "IN" exListing))[5]? = some (finalDf "IN" exListing).cols ∧
    (writeExcel (finalDf "IN" exListing))[0]? = some [] :=
  ⟨by decide,
   (c7_header_written_at_row_index_5 "IN" exListing (by decide)).1,
   (c7_header_written_at_row_index_5 "IN" exListing (by decide)).2.2.1,
   (c7_header_written_at_row_index_5 "IN" exListing (by decide)).2.1 0 (by decide)⟩

end ReportesTurno
